import Mathlib

/-!
Verification development for the ClinicalRxQ Member Hub client core.

This file shallowly embeds the state stores and data-access functions of the
repository (auth store, profile store, resource-bookmark store, profile
dashboard service, and the add-profile form validator) and proves the
behavioural properties claimed for them.

Modelling conventions:
- Remote (supabase) calls are embedded by passing their outcome explicitly.
  A call's outcome is `SupaResult α`: either the awaited promise rejected
  (`.rejected`), or it resolved with a `{ data, error }` response
  (`.resolved data err`).  Code that throws is embedded in `Except Err`.
- JavaScript `Set<string>` is embedded as a duplicate-free `List String`
  with insertion-order `setAdd` / `setDelete`.
- `sessionStorage` is embedded as an `Option Json` cell; `JSON.stringify` /
  `JSON.parse` are the identity embedding between a stored string and the
  `Json` tree it denotes, so serialization is modelled at the `Json` level
  (`encodeProfile` / `decodeProfile`).  A JS field holding `null` and an
  absent (`undefined`) field are both modelled as `none`, except where the
  code distinguishes them (`updateAccount`, where `undefined` means "field
  not sent" while `null` is sent: there the two layers are `Option (Option _)`).
-/

/-- A supabase/PostgREST error object: an error `code` plus a message. -/
structure Err where
  code : String
  message : String
deriving DecidableEq, Repr

/-- Outcome of one awaited supabase call: the promise either rejected, or it
resolved with a `{ data, error }` response object. -/
inductive SupaResult (α : Type) where
  | rejected (e : Err)
  | resolved (data : Option α) (err : Option Err)
deriving DecidableEq, Repr

/-- A resolved response whose `error` field is set, or a rejected promise:
the remote persistence operation did not succeed. -/
def SupaResult.failed {α : Type} : SupaResult α → Bool
  | .rejected _ => true
  | .resolved _ (some _) => true
  | .resolved _ none => false

/-- JSON trees, the codomain of `JSON.parse`. -/
inductive Json where
  | null
  | bool (b : Bool)
  | num (n : Int)
  | str (s : String)
  | arr (xs : List Json)
  | obj (fields : List (String × Json))

/-- Field lookup in a JSON object body (first match wins, as in JS). -/
def lookupField : List (String × Json) → String → Option Json
  | [], _ => none
  | (k, v) :: rest, key => if k = key then some v else lookupField rest key

/-- Encode an optional string the way a nullable/undefined JS field is
serialized (both become the absent value, modelled `Json.null`). -/
def optStr : Option String → Json
  | none => Json.null
  | some s => Json.str s

/-- Encode an optional boolean field. -/
def optBool : Option Bool → Json
  | none => Json.null
  | some b => Json.bool b

/-- Read a field produced by `optStr` back. -/
def readOptStr : Option Json → Option String
  | some (Json.str s) => some s
  | _ => none

/-- Read a field produced by `optBool` back. -/
def readOptBool : Option Json → Option Bool
  | some (Json.bool b) => some b
  | _ => none

/-- JS string truthiness for `x || fallback` on a nullable string column:
`null`, `undefined` and `""` are falsy. -/
def orDefault (o : Option String) (d : String) : String :=
  match o with
  | some s => if s = "" then d else s
  | none => d

/-- JS string truthiness test (`row.started_at ? _ : _`). -/
def truthyStr (o : Option String) : Bool :=
  match o with
  | some s => !(s == "")
  | none => false

/--
A member profile as built by `mapRowToProfile` in `profileStore.ts`
(src/unnamed/part_002): the camelCase view-model of a `member_profiles` row.
Nullable/absent columns are `Option` fields; `createdAt` is the ISO
timestamp string that the database's `order('created_at')` key is taken from
(ISO-8601 strings compare lexicographically in timestamp order).
-/
structure MemberProfile where
  id : String
  accountId : String
  roleType : Option String
  firstName : String
  lastName : Option String
  phoneNumber : Option String
  profileEmail : Option String
  dobMonth : Option String
  dobDay : Option String
  dobYear : Option String
  licenseNumber : Option String
  nabpEprofileId : Option String
  isActive : Option Bool
  createdAt : String
  updatedAt : Option String
deriving DecidableEq, Repr

/-- `JSON.stringify` of a full `MemberProfile` object, at the `Json` level:
every field of the in-memory object is written out
(`saveCurrentProfile`, profileStore.ts). -/
def encodeProfile (p : MemberProfile) : Json :=
  Json.obj
    [ ("id", Json.str p.id)
    , ("accountId", Json.str p.accountId)
    , ("roleType", optStr p.roleType)
    , ("firstName", Json.str p.firstName)
    , ("lastName", optStr p.lastName)
    , ("phoneNumber", optStr p.phoneNumber)
    , ("profileEmail", optStr p.profileEmail)
    , ("dobMonth", optStr p.dobMonth)
    , ("dobDay", optStr p.dobDay)
    , ("dobYear", optStr p.dobYear)
    , ("licenseNumber", optStr p.licenseNumber)
    , ("nabpEprofileId", optStr p.nabpEprofileId)
    , ("isActive", optBool p.isActive)
    , ("createdAt", Json.str p.createdAt)
    , ("updatedAt", optStr p.updatedAt)
    ]

/-- Reading a parsed profile object back out of the session cache
(`loadCurrentProfile`, profileStore.ts): the code trusts the stored shape,
so this is the field-by-field read of the parsed JSON object; a value that
is not profile-shaped yields `none` (the `catch` branch's `null`). -/
def decodeProfile (j : Json) : Option MemberProfile :=
  match j with
  | Json.obj fs =>
    match lookupField fs "id", lookupField fs "accountId",
          lookupField fs "firstName", lookupField fs "createdAt" with
    | some (Json.str i), some (Json.str acc), some (Json.str fn), some (Json.str ca) =>
      some
        { id := i
        , accountId := acc
        , roleType := readOptStr (lookupField fs "roleType")
        , firstName := fn
        , lastName := readOptStr (lookupField fs "lastName")
        , phoneNumber := readOptStr (lookupField fs "phoneNumber")
        , profileEmail := readOptStr (lookupField fs "profileEmail")
        , dobMonth := readOptStr (lookupField fs "dobMonth")
        , dobDay := readOptStr (lookupField fs "dobDay")
        , dobYear := readOptStr (lookupField fs "dobYear")
        , licenseNumber := readOptStr (lookupField fs "licenseNumber")
        , nabpEprofileId := readOptStr (lookupField fs "nabpEprofileId")
        , isActive := readOptBool (lookupField fs "isActive")
        , createdAt := ca
        , updatedAt := readOptStr (lookupField fs "updatedAt")
        }
    | _, _, _, _ => none
  | _ => none

/-- A concrete profile used to instantiate universally quantified theorems. -/
def sampleProfile : MemberProfile :=
  { id := "p-1"
  , accountId := "acct-1"
  , roleType := some "Pharmacist-PIC"
  , firstName := "Alice"
  , lastName := some "Smith"
  , phoneNumber := none
  , profileEmail := none
  , dobMonth := some "05"
  , dobDay := some "31"
  , dobYear := some "1999"
  , licenseNumber := none
  , nabpEprofileId := none
  , isActive := some true
  , createdAt := "2024-01-01T00:00:00Z"
  , updatedAt := none }

/-- A second concrete profile, created later than `sampleProfile`. -/
def sampleProfileB : MemberProfile :=
  { sampleProfile with
    id := "p-2"
  , firstName := "Bob"
  , roleType := some "Pharmacy Technician"
  , createdAt := "2024-02-03T00:00:00Z" }

namespace ProfileStore

/-- In-memory state of the profile store (`profileStore.ts`,
src/unnamed/part_002). -/
structure ProfileState where
  currentProfile : Option MemberProfile
  profiles : List MemberProfile
  loading : Bool
deriving DecidableEq, Repr

/-- `saveCurrentProfile`: writes the serialized profile into the
session-scoped cache cell, or removes the entry for `null`. -/
def saveCurrentProfile (p : Option MemberProfile) (_cache : Option Json) : Option Json :=
  match p with
  | some q => some (encodeProfile q)
  | none => none

/-- `loadCurrentProfile`: reads and parses the cached profile; absent key or
a parse/shape failure yields `null`. -/
def loadCurrentProfile (cache : Option Json) : Option MemberProfile :=
  match cache with
  | some j => decodeProfile j
  | none => none

/-- Store construction (`create(...)` initial state): `currentProfile` is
seeded from the session cache; the second component is the list of remote
operations issued during construction — none, construction is pure. -/
def initStore (cache : Option Json) : ProfileState × List String :=
  ({ currentProfile := loadCurrentProfile cache, profiles := [], loading := false }, [])

/-- `setCurrentProfile`: persists the full profile to the session cache and
sets the in-memory selection. -/
def setCurrentProfile (p : MemberProfile) (st : ProfileState) (cache : Option Json) :
    ProfileState × Option Json :=
  ({ st with currentProfile := some p }, saveCurrentProfile (some p) cache)

/-- `clearProfile`: clears the cache entry, the selection and the roster. -/
def clearProfile (st : ProfileState) (cache : Option Json) :
    ProfileState × Option Json :=
  ({ st with currentProfile := none, profiles := [] }, saveCurrentProfile none cache)

/-- `loadProfiles` (src/unnamed/part_002, lines 249-273): replaces the roster
with the fetched active profiles (already mapped through `mapRowToProfile`);
on a fetch error the roster is reset to `[]` and the error is rethrown
(second component); `loading` ends `false` in every path (`finally`). -/
def loadProfiles (result : SupaResult (List MemberProfile)) (st : ProfileState) :
    ProfileState × Option Err :=
  match result with
  | .rejected e => ({ st with profiles := [], loading := false }, some e)
  | .resolved data err =>
    match err with
    | some e => ({ st with profiles := [], loading := false }, some e)
    | none => ({ st with profiles := data.getD [], loading := false }, none)

/-- The `order('created_at', { ascending: true })` ordering key. -/
def createdLE (a b : MemberProfile) : Prop := a.createdAt ≤ b.createdAt

/-- Modelled from the spec: `loadProfilesAndSetDefault(accountId)` is called
by the auth store and the Account pages, but the profileStore revision that
defines it is not under src/ (the included revision, src/unnamed/part_002,
has only `loadProfiles`, which never touches `currentProfile`).  Per spec
§4.2: it fetches all active profiles for the account ordered by creation
time ascending (`fetched` is that remote response); if no profile is
currently selected, or the previously selected one no longer exists in the
fresh list, it selects a default (first in list) and persists the selection;
it always replaces the in-memory roster.  The spec leaves the empty-roster
default unspecified; an empty fetch clears the selection and the cache. -/
def loadProfilesAndSetDefault (fetched : List MemberProfile) (st : ProfileState)
    (cache : Option Json) : ProfileState × Option Json :=
  let stillThere :=
    match st.currentProfile with
    | none => false
    | some cp => fetched.any (fun q => q.id == cp.id)
  if stillThere then
    ({ st with profiles := fetched }, cache)
  else
    match fetched.head? with
    | some p0 =>
      ({ st with profiles := fetched, currentProfile := some p0 },
       saveCurrentProfile (some p0) cache)
    | none =>
      ({ st with profiles := fetched, currentProfile := none },
       saveCurrentProfile none cache)

end ProfileStore

namespace BookmarkStore

/-- In-memory state of the resource-bookmark store (src/unnamed/part_002,
lines 300-390). -/
structure BookmarkState where
  bookmarkedPaths : List String
  loading : Bool
deriving DecidableEq, Repr

/-- `Set.add`: no-op when present, else appended in insertion order. -/
def setAdd (s : List String) (x : String) : List String :=
  if x ∈ s then s else s ++ [x]

/-- `Set.delete`. -/
def setDelete (s : List String) (x : String) : List String :=
  s.filter (fun y => y != x)

/-- `new Set(list)`. -/
def mkSet (l : List String) : List String := l.foldl setAdd []

/-- The resource argument of the bookmark operations; only its `path` is
read by the store. -/
structure StorageFileItem where
  path : String
deriving DecidableEq, Repr

/-- `isBookmarked`: pure local membership test against the set. -/
def isBookmarked (st : BookmarkState) (resourcePath : String) : Bool :=
  st.bookmarkedPaths.contains resourcePath

/-- `toggleBookmark` (src/unnamed/part_002, lines 331-365): reads current
membership, awaits the opposite remote operation (delete-if-present /
insert-if-absent), and replaces the local set with the toggled copy.  The
`await`ed response object is never destructured, so its `error` field is
not inspected (`_data`, `_err`); only a promise rejection reaches the
`catch`, which logs and rethrows without touching the set. -/
def toggleBookmark (remote : SupaResult Unit) (_profileId : String)
    (st : BookmarkState) (resource : StorageFileItem) : Except Err BookmarkState :=
  let wasBookmarked := st.bookmarkedPaths.contains resource.path
  match remote with
  | .rejected e => Except.error e
  | .resolved _data _err =>
    if wasBookmarked then
      Except.ok { st with bookmarkedPaths := setDelete st.bookmarkedPaths resource.path }
    else
      Except.ok { st with bookmarkedPaths := setAdd st.bookmarkedPaths resource.path }

/-- The store state a caller observes after `toggleBookmark`: on rejection no
`set(...)` ran, so the state is unchanged. -/
def afterToggle (remote : SupaResult Unit) (profileId : String)
    (st : BookmarkState) (resource : StorageFileItem) : BookmarkState :=
  match toggleBookmark remote profileId st resource with
  | Except.ok st2 => st2
  | Except.error _ => st

/-- `loadBookmarks` (src/unnamed/part_002, lines 367-385): replaces the set
wholesale on success; a fetch error is thrown into the `catch`, which only
logs (the previous set is retained and the promise resolves normally); the
`finally` resets `loading`.  Total return type = the function never rejects. -/
def loadBookmarks (result : SupaResult (List String)) (st : BookmarkState) :
    BookmarkState :=
  match result with
  | .rejected _ => { st with loading := false }
  | .resolved data err =>
    match err with
    | some _ => { st with loading := false }
    | none => { bookmarkedPaths := mkSet (data.getD []), loading := false }

/-- `clearBookmarks`. -/
def clearBookmarks (st : BookmarkState) : BookmarkState :=
  { st with bookmarkedPaths := [] }

end BookmarkStore

namespace AuthStore

/-- The auth provider's user object (`session.user`). -/
structure UserT where
  id : String
deriving DecidableEq, Repr

/-- The auth provider's session object. -/
structure Session where
  user : UserT
deriving DecidableEq, Repr

/-- A `public.accounts` row (snake_case persisted shape). -/
structure AccountRow where
  id : String
  email : String
  pharmacy_name : String
  pharmacy_phone : Option String
  subscription_status : Option String
  created_at : String
  updated_at : Option String
  address1 : Option String
  city : Option String
  state : Option String
  zipcode : Option Int
deriving DecidableEq, Repr

/-- The camelCase `Account` view-model (src/types/index.ts). -/
structure Account where
  id : String
  email : String
  pharmacyName : String
  pharmacyPhone : Option String
  subscriptionStatus : String
  createdAt : String
  updatedAt : Option String
  address1 : Option String
  city : Option String
  state : Option String
  zipcode : Option Int
deriving DecidableEq, Repr

/-- `mapRowToAccount`: snake_case row to camelCase view-model;
`subscription_status || 'inactive'` falls back on a falsy column. -/
def mapRowToAccount (row : AccountRow) : Account :=
  { id := row.id
  , email := row.email
  , pharmacyName := row.pharmacy_name
  , pharmacyPhone := row.pharmacy_phone
  , subscriptionStatus := orDefault row.subscription_status "inactive"
  , createdAt := row.created_at
  , updatedAt := row.updated_at
  , address1 := row.address1
  , city := row.city
  , state := row.state
  , zipcode := row.zipcode
  }

/-- In-memory state of the auth store. -/
structure AuthState where
  session : Option Session
  user : Option UserT
  account : Option Account
  isAuthenticated : Bool
  isInitialized : Bool
deriving DecidableEq, Repr

/-- The fully logged-out (and initialized) auth state. -/
def loggedOutInitialized : AuthState :=
  { session := none, user := none, account := none
  , isAuthenticated := false, isInitialized := true }

/-- Calls issued to the auth provider during a handler run. -/
inductive ProviderCall where
  | signOut
deriving DecidableEq, Repr

/-- The `onAuthStateChange` handler as written in src/unnamed/part_002
(lines 52-91): with a session, the `accounts` row is fetched by user id
(only the `data` of that response is destructured, so a missing row and a
query error both surface as `accountRow = null`).  If found, the auth state
is hydrated and then the Profile Store's `loadProfilesAndSetDefault` runs
(`fetchedProfiles` is its remote response).  If not found, the provider's
`signOut` is invoked, all auth state is reset to logged-out, and the
Profile Store is cleared.  With no session, state is reset and the Profile
Store cleared without a sign-out. -/
def onAuthStateChangeClearing (accounts : String → Option AccountRow)
    (fetchedProfiles : List MemberProfile) (session : Option Session)
    (_st : AuthState) (pst : ProfileStore.ProfileState) (cache : Option Json) :
    AuthState × ProfileStore.ProfileState × Option Json × List ProviderCall :=
  match session with
  | some s =>
    match accounts s.user.id with
    | some row =>
      let st2 : AuthState :=
        { session := some s, user := some s.user
        , account := some (mapRowToAccount row)
        , isAuthenticated := true, isInitialized := true }
      let (pst2, cache2) := ProfileStore.loadProfilesAndSetDefault fetchedProfiles pst cache
      (st2, pst2, cache2, [])
    | none =>
      let (pst2, cache2) := ProfileStore.clearProfile pst cache
      (loggedOutInitialized, pst2, cache2, [ProviderCall.signOut])
  | none =>
    let (pst2, cache2) := ProfileStore.clearProfile pst cache
    (loggedOutInitialized, pst2, cache2, [])

/-- The `onAuthStateChange` handler as written in src/src/stores/authStore.ts
(lines 50-81).  It differs from the part_002 revision in the missing-row
branch only: it just invokes the provider's `signOut` and leaves the state
to be reset by the provider's subsequent signed-out change event. -/
def onAuthStateChangeSignOutOnly (accounts : String → Option AccountRow)
    (fetchedProfiles : List MemberProfile) (session : Option Session)
    (st : AuthState) (pst : ProfileStore.ProfileState) (cache : Option Json) :
    AuthState × ProfileStore.ProfileState × Option Json × List ProviderCall :=
  match session with
  | some s =>
    match accounts s.user.id with
    | some row =>
      let st2 : AuthState :=
        { session := some s, user := some s.user
        , account := some (mapRowToAccount row)
        , isAuthenticated := true, isInitialized := true }
      let (pst2, cache2) := ProfileStore.loadProfilesAndSetDefault fetchedProfiles pst cache
      (st2, pst2, cache2, [])
    | none =>
      (st, pst, cache, [ProviderCall.signOut])
  | none =>
    let (pst2, cache2) := ProfileStore.clearProfile pst cache
    (loggedOutInitialized, pst2, cache2, [])

/-- A column value in an update payload. -/
inductive Value where
  | null
  | str (s : String)
  | num (n : Int)
deriving DecidableEq, Repr

/-- A provided (defined) field value: the code sends `null` as SQL null. -/
def toValue : Option String → Value
  | none => Value.null
  | some s => Value.str s

/-- A provided numeric field value. -/
def toValueInt : Option Int → Value
  | none => Value.null
  | some n => Value.num n

/-- The `Partial<Account>` argument of `updateAccount`: every `Account`
field may be absent (`none` = `undefined`, not sent).  For the nullable
fields the inner `Option` distinguishes an explicit `null` (sent) from a
string value, mirroring the `!== undefined` checks in the code. -/
structure AccountUpdate where
  id : Option String := none
  email : Option String := none
  pharmacyName : Option String := none
  pharmacyPhone : Option (Option String) := none
  subscriptionStatus : Option String := none
  createdAt : Option String := none
  updatedAt : Option (Option String) := none
  address1 : Option (Option String) := none
  city : Option (Option String) := none
  state : Option (Option String) := none
  zipcode : Option (Option Int) := none
deriving DecidableEq, Repr

/-- The `updatePayload` object built by `updateAccount`
(src/src/stores/authStore.ts lines 114-125, identically in
src/unnamed/part_002 lines 141-152): each of the seven handled fields is
added exactly when it is not `undefined`. -/
def updateAccountPayload (u : AccountUpdate) : List (String × Value) :=
  (match u.email with
   | some v => [("email", Value.str v)]
   | none => [])
  ++ (match u.pharmacyName with
      | some v => [("pharmacy_name", Value.str v)]
      | none => [])
  ++ (match u.pharmacyPhone with
      | some v => [("pharmacy_phone", toValue v)]
      | none => [])
  ++ (match u.address1 with
      | some v => [("address1", toValue v)]
      | none => [])
  ++ (match u.city with
      | some v => [("city", toValue v)]
      | none => [])
  ++ (match u.state with
      | some v => [("state", toValue v)]
      | none => [])
  ++ (match u.zipcode with
      | some v => [("zipcode", toValueInt v)]
      | none => [])

/-- `updateAccount`: requires a resolved user (`getUser()`); otherwise it
throws `'No authenticated user'`.  On success it issues an update with the
built payload scoped to `id = user.id` (returned here as the payload and
the equality-filter value). -/
def updateAccount (user : Option UserT) (u : AccountUpdate) :
    Except String (List (String × Value) × String) :=
  match user with
  | none => Except.error "No authenticated user"
  | some usr => Except.ok (updateAccountPayload u, usr.id)

/-- The snake_case columns of the update payload. -/
def payloadColumns (u : AccountUpdate) : List String :=
  (updateAccountPayload u).map Prod.fst

/-- The column set the claim under review describes: one snake_case column
for every camelCase `Account` field that is defined in the argument.  This
definition follows the claim's words (it covers all `Account` fields), to
be compared against the columns the code actually sends. -/
def claimedColumns (u : AccountUpdate) : List String :=
  (if u.id.isSome then ["id"] else [])
  ++ (if u.email.isSome then ["email"] else [])
  ++ (if u.pharmacyName.isSome then ["pharmacy_name"] else [])
  ++ (if u.pharmacyPhone.isSome then ["pharmacy_phone"] else [])
  ++ (if u.subscriptionStatus.isSome then ["subscription_status"] else [])
  ++ (if u.createdAt.isSome then ["created_at"] else [])
  ++ (if u.updatedAt.isSome then ["updated_at"] else [])
  ++ (if u.address1.isSome then ["address1"] else [])
  ++ (if u.city.isSome then ["city"] else [])
  ++ (if u.state.isSome then ["state"] else [])
  ++ (if u.zipcode.isSome then ["zipcode"] else [])

end AuthStore

namespace DashboardService

/-- A `storage_files_catalog` row (the columns this service reads). -/
structure CatalogRow where
  id : String
  file_path : String
deriving DecidableEq, Repr

/-- The PostgREST error returned by `.single()` when the result is not
exactly one row. -/
def pgrstNoRows : Err :=
  { code := "PGRST116"
  , message := "JSON object requested, multiple (or no) rows returned" }

/-- `.single()` on `storage_files_catalog` filtered by `file_path`: exactly
one matching row yields its `id`, anything else the PGRST116 error. -/
def singleCatalog (catalog : List CatalogRow) (path : String) : Except Err String :=
  match catalog.filter (fun r => r.file_path == path) with
  | [r] => Except.ok r.id
  | _ => Except.error pgrstNoRows

/-- A `bookmarks` row in the catalog-join schema revision. -/
structure BookmarkRow where
  profile_id : String
  resource_id : String
deriving DecidableEq, Repr

/-- `isBookmarked` (src/src/services/profileDashboardService.ts, lines
558-577, catalog-join revision): resolve the path to a catalog row first;
any resolution error returns `false` ("file not found in catalog") without
running the bookmarks query; otherwise the membership query runs (`bmErr`
is its error outcome) and a genuine error there is thrown. -/
def isBookmarked (catalog : List CatalogRow) (bookmarks : List BookmarkRow)
    (bmErr : Option Err) (profileId resourcePath : String) : Except Err Bool :=
  match singleCatalog catalog resourcePath with
  | Except.error _ => Except.ok false
  | Except.ok rid =>
    match bmErr with
    | some e => Except.error e
    | none =>
      Except.ok (decide (0 < ((bookmarks.filter
        (fun b => b.profile_id == profileId && b.resource_id == rid)).take 1).length))

/-- `addBookmark` (lines 507-535, catalog-join revision): the path must
resolve to a catalog row; a resolution failure is thrown (`fileError`),
then the insert runs (`insertErr` its error outcome) and returns the
inserted row. -/
def addBookmark (catalog : List CatalogRow) (insertErr : Option Err)
    (profileId : String) (resource : BookmarkStore.StorageFileItem) :
    Except Err BookmarkRow :=
  match singleCatalog catalog resource.path with
  | Except.error e => Except.error e
  | Except.ok rid =>
    match insertErr with
    | some e => Except.error e
    | none => Except.ok { profile_id := profileId, resource_id := rid }

/-- `removeBookmark` (lines 538-555, catalog-join revision): same resolution
step, thrown on failure; the delete is scoped to the (profile, resource id)
pair, returned here as the pair of equality-filter values. -/
def removeBookmark (catalog : List CatalogRow) (deleteErr : Option Err)
    (profileId resourcePath : String) : Except Err (String × String) :=
  match singleCatalog catalog resourcePath with
  | Except.error e => Except.error e
  | Except.ok rid =>
    match deleteErr with
    | some e => Except.error e
    | none => Except.ok (profileId, rid)

/-- A `member_training_progress` row (catalog-join revision's columns). -/
structure TrainingRow where
  id : String
  member_profile_id : String
  training_module_id : String
  started_at : Option String
  completed_at : Option String
  completion_percentage : Option Int
  is_completed : Option Bool
  attempts : Option Int
deriving DecidableEq, Repr

/-- The `TrainingProgress` view-model built by `getModuleProgress`. -/
structure TrainingProgress where
  id : String
  trainingModuleId : String
  moduleName : String
  startTime : Option String
  completedTime : Option String
  completionPercentage : Int
  completionStatus : String
  isCompleted : Bool
  attempts : Int
deriving DecidableEq, Repr

/-- The row-to-view mapping inside `getModuleProgress` (lines 653-663):
`|| 0` / `|| false` fallbacks, and the derived status. -/
def mapProgressRow (r : TrainingRow) : TrainingProgress :=
  { id := r.id
  , trainingModuleId := r.training_module_id
  , moduleName := "Unknown Module"
  , startTime := r.started_at
  , completedTime := r.completed_at
  , completionPercentage := r.completion_percentage.getD 0
  , completionStatus :=
      if r.is_completed.getD false then "completed"
      else if truthyStr r.started_at then "in_progress" else "not_started"
  , isCompleted := r.is_completed.getD false
  , attempts := r.attempts.getD 0 }

/-- The `.single()` query of `getModuleProgress`: the progress table
filtered by (profile, module); no row (or several) yields PGRST116. -/
def queryModuleProgress (db : List TrainingRow) (profileId trainingModuleId : String) :
    Except Err TrainingRow :=
  match db.filter (fun r =>
      r.member_profile_id == profileId && r.training_module_id == trainingModuleId) with
  | [r] => Except.ok r
  | _ => Except.error pgrstNoRows

/-- `getModuleProgress` (lines 637-664; the earlier schema revision, lines
280-305, has the identical error handling): a PGRST116 "no rows" error maps
to `null`, any other error is rethrown, a row is mapped to the view-model. -/
def getModuleProgress (res : Except Err TrainingRow) :
    Except Err (Option TrainingProgress) :=
  match res with
  | Except.error e => if e.code = "PGRST116" then Except.ok none else Except.error e
  | Except.ok row => Except.ok (some (mapProgressRow row))

/-- The `updateData` object sent by `updateTrainingProgress`. -/
structure TrainingUpdateData where
  completion_percentage : Int
  is_completed : Bool
  completed_at : Option String
deriving DecidableEq, Repr

/-- `updateTrainingProgress` (lines 604-626; the earlier revision, lines
247-269, clamps identically): the stored percentage is
`Math.min(100, Math.max(0, completionPercentage))`; completion stamps
`completed_at`; the update is scoped to the (profile, module) pair
(returned as the two equality-filter values).  JS numbers are embedded as
integers; clamping is purely order-theoretic. -/
def updateTrainingProgress (profileId trainingModuleId : String)
    (completionPercentage : Int) (isCompleted : Bool) (now : String) :
    TrainingUpdateData × String × String :=
  ( { completion_percentage := min 100 (max 0 completionPercentage)
    , is_completed := isCompleted
    , completed_at := if isCompleted then some now else none }
  , profileId, trainingModuleId )

end DashboardService

namespace AddProfileModal

/-- `^(0[1-9]|1[0-2])$` on the month field. -/
def matchMonth (s : String) : Bool :=
  match s.data with
  | [c0, c1] =>
    (c0 == '0' && decide ('1' ≤ c1) && decide (c1 ≤ '9'))
    || (c0 == '1' && decide ('0' ≤ c1) && decide (c1 ≤ '2'))
  | _ => false

/-- `^(0[1-9]|[12][0-9]|3[01])$` on the day field. -/
def matchDay (s : String) : Bool :=
  match s.data with
  | [c0, c1] =>
    (c0 == '0' && decide ('1' ≤ c1) && decide (c1 ≤ '9'))
    || ((c0 == '1' || c0 == '2') && decide ('0' ≤ c1) && decide (c1 ≤ '9'))
    || (c0 == '3' && (c1 == '0' || c1 == '1'))
  | _ => false

/-- `^(19|20)\d\d$` on the year field. -/
def matchYear (s : String) : Bool :=
  match s.data with
  | [c0, c1, c2, c3] =>
    ((c0 == '1' && c1 == '9') || (c0 == '2' && c1 == '0')) && c2.isDigit && c3.isDigit
  | _ => false

/-- The regex class `\s` (ASCII whitespace; the rare Unicode space
characters are not representable in the form inputs modelled here). -/
def isJsSpace (c : Char) : Bool :=
  c == ' ' || c == '\t' || c == '\n' || c == '\r' || c == '\x0b' || c == '\x0c'

/-- `^[0-9+()\-\s]{7,}$` on the phone field. -/
def matchPhone (s : String) : Bool :=
  decide (7 ≤ s.data.length)
  && s.data.all (fun c =>
      c.isDigit || c == '+' || c == '(' || c == ')' || c == '-' || isJsSpace c)

/-- `^[^@\s]+@[^@\s]+\.[^@\s]+$` on the email field: exactly one `@`, a
nonempty space-free local part, and a space-free domain containing a `.` at
an interior position (so the segments around some dot are nonempty). -/
def matchEmail (s : String) : Bool :=
  match s.data.splitOn '@' with
  | [l, r] =>
    !l.isEmpty && l.all (fun c => !(isJsSpace c))
    && !r.isEmpty && r.all (fun c => !(isJsSpace c))
    && ((r.drop 1).dropLast.contains '.')
  | _ => false

/-- The values of the add-profile form (all text inputs default to `""`;
the role select starts unset). -/
structure FormValues where
  roleType : Option String
  firstName : String
  lastName : String
  phoneNumber : String
  profileEmail : String
  dobMonth : String
  dobDay : String
  dobYear : String
  licenseNumber : String
  nabpEprofileId : String
deriving DecidableEq, Repr

/-- `z.string().optional().refine((v) => !v || regex.test(v))`: the empty
(or absent) value passes, otherwise the regex decides. -/
def optionalField (re : String → Bool) (v : String) : Bool :=
  v == "" || re v

/-- The `z.enum` role check. -/
def roleOk (r : Option String) : Bool :=
  match r with
  | some s => s == "Pharmacist-PIC" || s == "Pharmacist-Staff" || s == "Pharmacy Technician"
  | none => false

/-- The zod `schema` (src/src/App.tsx lines 157-170): role from the enum,
nonempty first/last name, and the lightly-validated optional fields. -/
def validateSchema (f : FormValues) : Bool :=
  roleOk f.roleType
  && !(f.firstName == "") && !(f.lastName == "")
  && optionalField matchPhone f.phoneNumber
  && optionalField matchEmail f.profileEmail
  && optionalField matchMonth f.dobMonth
  && optionalField matchDay f.dobDay
  && optionalField matchYear f.dobYear

/-- `x || null` on a submitted text value. -/
def orNull (s : String) : Option String :=
  if s = "" then none else some s

/-- The `profileData` row built by `onSubmit` (lines 220-233). -/
structure ProfileInsert where
  member_account_id : String
  role_type : String
  first_name : String
  last_name : String
  phone_number : Option String
  profile_email : Option String
  dob_month : Option String
  dob_day : Option String
  dob_year : Option String
  license_number : Option String
  nabp_eprofile_id : Option String
  is_active : Bool
deriving DecidableEq, Repr

/-- The network writes `onSubmit` can issue. -/
inductive DbWrite where
  | insertRow (row : ProfileInsert)
  | updateRow (row : ProfileInsert) (profileId accountId : String)
deriving DecidableEq, Repr

/-- `onSubmit` (lines 213-261): bails out with a toast when no account is
resolved; otherwise builds `profileData` and issues exactly one write —
an update scoped to the profile when editing, an insert when creating. -/
def onSubmit (account : Option String) (profileId : Option String)
    (d : FormValues) : List DbWrite :=
  match account with
  | none => []
  | some aid =>
    let row : ProfileInsert :=
      { member_account_id := aid
      , role_type := d.roleType.getD ""
      , first_name := d.firstName
      , last_name := d.lastName
      , phone_number := orNull d.phoneNumber
      , profile_email := orNull d.profileEmail
      , dob_month := orNull d.dobMonth
      , dob_day := orNull d.dobDay
      , dob_year := orNull d.dobYear
      , license_number := orNull d.licenseNumber
      , nabp_eprofile_id := orNull d.nabpEprofileId
      , is_active := true }
    match profileId with
    | some pid => [DbWrite.updateRow row pid aid]
    | none => [DbWrite.insertRow row]

/-- `handleSubmit(onSubmit)` with the zod resolver: `onSubmit` runs only
when the schema accepts, so an invalid form issues no network write. -/
def submitForm (account : Option String) (profileId : Option String)
    (f : FormValues) : List DbWrite :=
  if validateSchema f then onSubmit account profileId f else []

/-- A form whose non-dob fields are fixed to concretely valid values, with
the date-of-birth triple as the varying input. -/
def mkDobForm (m d y : String) : FormValues :=
  { roleType := some "Pharmacist-PIC"
  , firstName := "Jane"
  , lastName := "Doe"
  , phoneNumber := ""
  , profileEmail := ""
  , dobMonth := m
  , dobDay := d
  , dobYear := y
  , licenseNumber := ""
  , nabpEprofileId := "" }

end AddProfileModal

/-! ## Supporting lemmas -/

lemma readOptStr_optStr (o : Option String) : readOptStr (some (optStr o)) = o := by
  cases o <;> rfl

lemma readOptBool_optBool (o : Option Bool) : readOptBool (some (optBool o)) = o := by
  cases o <;> rfl

/-- Serialize-then-deserialize is the identity on profile objects. -/
lemma decodeProfile_encodeProfile (p : MemberProfile) :
    decodeProfile (encodeProfile p) = some p := by
  simp [decodeProfile, encodeProfile, lookupField,
    readOptStr_optStr, readOptBool_optBool]

lemma optionalField_empty (re : String → Bool) :
    AddProfileModal.optionalField re "" = true := by
  simp [AddProfileModal.optionalField]

lemma mem_setAdd_self (s : List String) (x : String) :
    x ∈ BookmarkStore.setAdd s x := by
  by_cases hx : x ∈ s <;> simp [BookmarkStore.setAdd, hx]

lemma not_mem_setDelete_self (s : List String) (x : String) :
    x ∉ BookmarkStore.setDelete s x := by
  simp [BookmarkStore.setDelete]

/-! ## Claim C4 -/

/-- Claim C4: `setCurrentProfile(p)` followed by reconstructing the profile
store from the session-scoped cache (simulated reload) yields
`currentProfile = p`, with no network fetch during construction: the
serialize/deserialize pair is a round trip on the full profile object. -/
theorem setCurrentProfile_reload_roundtrip (p : MemberProfile)
    (st : ProfileStore.ProfileState) (cache : Option Json) :
    (ProfileStore.initStore ((ProfileStore.setCurrentProfile p st cache).2)).1.currentProfile
      = some p ∧
    (ProfileStore.initStore ((ProfileStore.setCurrentProfile p st cache).2)).2 = [] := by
  refine ⟨?_, rfl⟩
  simp [ProfileStore.initStore, ProfileStore.setCurrentProfile,
    ProfileStore.saveCurrentProfile, ProfileStore.loadCurrentProfile,
    decodeProfile_encodeProfile]

/-! ## Claim C1 -/

/-- Claim C1 counterexample: a toggle whose remote insert resolves with an
error in its result (`SupaResult.failed = true`, the persistence operation
did not succeed) still mutates the local set — `isBookmarked` flips from
`false` to `true` — because `toggleBookmark` never inspects the resolved
response's `error` field. -/
theorem toggleBookmark_failed_result_still_mutates :
    SupaResult.failed (SupaResult.resolved (α := Unit) none (some ⟨"500", "insert failed"⟩)) = true ∧
    BookmarkStore.isBookmarked ⟨[], false⟩ "files/a.pdf" = false ∧
    BookmarkStore.toggleBookmark (SupaResult.resolved none (some ⟨"500", "insert failed"⟩))
        "profile-1" ⟨[], false⟩ ⟨"files/a.pdf"⟩
      = Except.ok ⟨["files/a.pdf"], false⟩ ∧
    BookmarkStore.isBookmarked ⟨["files/a.pdf"], false⟩ "files/a.pdf" = true := by
  refine ⟨rfl, rfl, ?_, ?_⟩ <;> rfl

/-- Claim C1, amended: if the remote call rejects (the awaited promise
throws), `toggleBookmark` rethrows and the local set is not mutated, so
`isBookmarked` answers as before; whenever the remote call resolves — the
code does not inspect the response's `error` field, so also when the result
carries an error — the local set is updated to the toggled state. -/
theorem toggleBookmark_reject_preserves_resolve_toggles
    (remote : SupaResult Unit) (profileId : String)
    (st : BookmarkStore.BookmarkState) (resource : BookmarkStore.StorageFileItem) :
    (∀ e, remote = SupaResult.rejected e →
      BookmarkStore.toggleBookmark remote profileId st resource = Except.error e ∧
      BookmarkStore.afterToggle remote profileId st resource = st) ∧
    (∀ data errField, remote = SupaResult.resolved data errField →
      BookmarkStore.isBookmarked (BookmarkStore.afterToggle remote profileId st resource)
          resource.path
        = !(BookmarkStore.isBookmarked st resource.path)) := by
  constructor
  · rintro e rfl
    exact ⟨rfl, rfl⟩
  · rintro data errField rfl
    by_cases h : resource.path ∈ st.bookmarkedPaths <;>
      simp [BookmarkStore.afterToggle, BookmarkStore.toggleBookmark,
        BookmarkStore.isBookmarked, h, not_mem_setDelete_self, mem_setAdd_self]

/-- Witness for the amended C1 theorem at concrete inputs (a rejected
delete leaves the set intact; a resolved insert toggles membership on). -/
theorem toggleBookmark_reject_preserves_resolve_toggles_witness :
    BookmarkStore.toggleBookmark (SupaResult.rejected ⟨"net", "fetch failed"⟩)
        "profile-1" ⟨["files/a.pdf"], false⟩ ⟨"files/a.pdf"⟩
      = Except.error ⟨"net", "fetch failed"⟩ ∧
    BookmarkStore.isBookmarked
        (BookmarkStore.afterToggle (SupaResult.resolved none none)
          "profile-1" ⟨[], false⟩ ⟨"files/b.pdf"⟩) "files/b.pdf" = true :=
  ⟨((toggleBookmark_reject_preserves_resolve_toggles
      (SupaResult.rejected ⟨"net", "fetch failed"⟩) "profile-1"
      ⟨["files/a.pdf"], false⟩ ⟨"files/a.pdf"⟩).1 _ rfl).1,
   by
    have h := (toggleBookmark_reject_preserves_resolve_toggles
      (SupaResult.resolved none none) "profile-1" ⟨[], false⟩ ⟨"files/b.pdf"⟩).2 none none rfl
    simpa using h⟩

/-! ## Claim C10 -/

/-- Claim C10: `loadBookmarks` never rejects (its embedding is a total
state transformer: every error path is caught and only logged); when the
remote fetch fails, the previous `bookmarkedPaths` set is retained, and
`loading` is reset to `false` in every path. -/
theorem loadBookmarks_error_resolves_and_preserves
    (result : SupaResult (List String)) (st : BookmarkStore.BookmarkState) :
    (BookmarkStore.loadBookmarks result st).loading = false ∧
    (SupaResult.failed result = true →
      (BookmarkStore.loadBookmarks result st).bookmarkedPaths = st.bookmarkedPaths) := by
  rcases result with e | ⟨data, err⟩
  · exact ⟨rfl, fun _ => rfl⟩
  · rcases err with _ | e
    · exact ⟨rfl, fun h => by simp [SupaResult.failed] at h⟩
    · exact ⟨rfl, fun _ => rfl⟩

/-- Witness for C10: a rejected fetch leaves a nonempty previous set
untouched and resets `loading`. -/
theorem loadBookmarks_error_resolves_and_preserves_witness :
    (BookmarkStore.loadBookmarks (SupaResult.rejected ⟨"500", "boom"⟩)
      ⟨["files/a.pdf"], true⟩).loading = false ∧
    (BookmarkStore.loadBookmarks (SupaResult.rejected ⟨"500", "boom"⟩)
      ⟨["files/a.pdf"], true⟩).bookmarkedPaths = ["files/a.pdf"] :=
  ⟨(loadBookmarks_error_resolves_and_preserves _ _).1,
   (loadBookmarks_error_resolves_and_preserves _ _).2 rfl⟩

/-- Witness for C4 at a concrete profile and an empty initial cache. -/
theorem setCurrentProfile_reload_roundtrip_witness :
    (ProfileStore.initStore
      ((ProfileStore.setCurrentProfile sampleProfile ⟨none, [], false⟩ none).2)).1.currentProfile
      = some sampleProfile :=
  (setCurrentProfile_reload_roundtrip sampleProfile ⟨none, [], false⟩ none).1

/-! ## Claim C2 -/

/-- Claim C2: when the auth change-notification handler runs with a session
whose user id has no `accounts` row, the final store state is fully logged
out (`session = none`, `account = none`, `isAuthenticated = false`), the
Profile Store is cleared (selection, roster and session cache), and the
provider's sign-out is invoked exactly once during that handling.  This
holds directly for the handler revision in src/unnamed/part_002, and for
the revision in src/src/stores/authStore.ts once the provider's signed-out
change event — which its `signOut()` call triggers — is delivered. -/
theorem missing_account_row_forces_single_signOut
    (accounts : String → Option AuthStore.AccountRow)
    (fetched : List MemberProfile) (s : AuthStore.Session)
    (st : AuthStore.AuthState) (pst : ProfileStore.ProfileState) (cache : Option Json)
    (h : accounts s.user.id = none) :
    (AuthStore.onAuthStateChangeClearing accounts fetched (some s) st pst cache
      = (AuthStore.loggedOutInitialized,
         { pst with currentProfile := none, profiles := [] }, none,
         [AuthStore.ProviderCall.signOut])) ∧
    ((AuthStore.onAuthStateChangeClearing accounts fetched (some s) st pst cache).2.2.2.count
        AuthStore.ProviderCall.signOut = 1) ∧
    (let r1 := AuthStore.onAuthStateChangeSignOutOnly accounts fetched (some s) st pst cache
     let r2 := AuthStore.onAuthStateChangeSignOutOnly accounts fetched none r1.1 r1.2.1 r1.2.2.1
     r2.1 = AuthStore.loggedOutInitialized ∧
     r2.2.1 = { pst with currentProfile := none, profiles := [] } ∧
     r2.2.2.1 = none ∧
     (r1.2.2.2 ++ r2.2.2.2).count AuthStore.ProviderCall.signOut = 1) := by
  refine ⟨?_, ?_, ?_, ?_, ?_, ?_⟩ <;>
    simp [AuthStore.onAuthStateChangeClearing, AuthStore.onAuthStateChangeSignOutOnly,
      h, ProfileStore.clearProfile, ProfileStore.saveCurrentProfile]

/-- Witness for C2 with a concrete session, empty accounts table, and a
previously authenticated state. -/
theorem missing_account_row_forces_single_signOut_witness :
    AuthStore.onAuthStateChangeClearing (fun _ => none) [] (some ⟨⟨"orphan"⟩⟩)
        AuthStore.loggedOutInitialized ⟨some sampleProfile, [sampleProfile], false⟩
        (some (encodeProfile sampleProfile))
      = (AuthStore.loggedOutInitialized, ⟨none, [], false⟩, none,
         [AuthStore.ProviderCall.signOut]) :=
  (missing_account_row_forces_single_signOut (fun _ => none) [] ⟨⟨"orphan"⟩⟩
    AuthStore.loggedOutInitialized ⟨some sampleProfile, [sampleProfile], false⟩
    (some (encodeProfile sampleProfile)) rfl).1

/-! ## Claim C3 -/

/-- Claim C3 (against the spec-modelled `loadProfilesAndSetDefault`): for a
fetched roster of N ≥ 1 active profiles, ordered by creation time ascending
as the query requests, and no currently selected profile, the operation
sets `currentProfile` to the first — i.e. earliest-created — profile of the
roster and persists that selection to the session-scoped cache. -/
theorem loadProfilesAndSetDefault_selects_earliest
    (fetched : List MemberProfile) (st : ProfileStore.ProfileState) (cache : Option Json)
    (hsorted : List.Sorted ProfileStore.createdLE fetched)
    (hne : fetched ≠ []) (hnone : st.currentProfile = none) :
    ∃ p0, fetched.head? = some p0 ∧
      (ProfileStore.loadProfilesAndSetDefault fetched st cache).1.currentProfile = some p0 ∧
      (ProfileStore.loadProfilesAndSetDefault fetched st cache).1.profiles = fetched ∧
      (ProfileStore.loadProfilesAndSetDefault fetched st cache).2
        = some (encodeProfile p0) ∧
      ∀ q ∈ fetched, p0.createdAt ≤ q.createdAt := by
  rcases fetched with _ | ⟨p0, rest⟩
  · exact absurd rfl hne
  · refine ⟨p0, rfl, ?_, ?_, ?_, ?_⟩
    · simp [ProfileStore.loadProfilesAndSetDefault, hnone]
    · simp [ProfileStore.loadProfilesAndSetDefault, hnone]
    · simp [ProfileStore.loadProfilesAndSetDefault, hnone, ProfileStore.saveCurrentProfile]
    · rcases List.sorted_cons.mp hsorted with ⟨hall, _⟩
      intro q hq
      rcases List.mem_cons.mp hq with rfl | hq2
      · exact le_refl _
      · exact hall q hq2

/-- Witness for C3: a two-profile roster (Alice created before Bob) with no
prior selection yields Alice as the default and caches her. -/
theorem loadProfilesAndSetDefault_selects_earliest_witness :
    (ProfileStore.loadProfilesAndSetDefault [sampleProfile, sampleProfileB]
      ⟨none, [], false⟩ none).1.currentProfile = some sampleProfile ∧
    (ProfileStore.loadProfilesAndSetDefault [sampleProfile, sampleProfileB]
      ⟨none, [], false⟩ none).2 = some (encodeProfile sampleProfile) := by
  obtain ⟨p0, hhead, hcur, _, hcache, _⟩ :=
    loadProfilesAndSetDefault_selects_earliest [sampleProfile, sampleProfileB]
      ⟨none, [], false⟩ none
      (by
        simp [List.sorted_cons, ProfileStore.createdLE, sampleProfile, sampleProfileB]
        decide)
      (by simp) rfl
  have hp : p0 = sampleProfile := by simpa using hhead.symm
  subst hp
  exact ⟨hcur, hcache⟩

/-! ## Claim C5 -/

/-- Claim C5: in the catalog-join schema revision, a resource path with no
`storage_files_catalog` row makes the membership check `isBookmarked`
return `false` (fail-open) without error, while `addBookmark` and
`removeBookmark` throw the resolution error (fail-closed). -/
theorem unresolved_path_failopen_read_failclosed_write
    (catalog : List DashboardService.CatalogRow)
    (bookmarks : List DashboardService.BookmarkRow)
    (bmErr insertErr deleteErr : Option Err) (profileId resourcePath : String)
    (h : ∀ r ∈ catalog, r.file_path ≠ resourcePath) :
    DashboardService.isBookmarked catalog bookmarks bmErr profileId resourcePath
      = Except.ok false ∧
    DashboardService.addBookmark catalog insertErr profileId ⟨resourcePath⟩
      = Except.error DashboardService.pgrstNoRows ∧
    DashboardService.removeBookmark catalog deleteErr profileId resourcePath
      = Except.error DashboardService.pgrstNoRows := by
  have hfilter : catalog.filter (fun r => r.file_path == resourcePath) = [] := by
    simp only [List.filter_eq_nil_iff]
    intro r hr
    simpa using h r hr
  have hsingle : DashboardService.singleCatalog catalog resourcePath
      = Except.error DashboardService.pgrstNoRows := by
    simp [DashboardService.singleCatalog, hfilter]
  exact ⟨by simp [DashboardService.isBookmarked, hsingle],
         by simp [DashboardService.addBookmark, hsingle],
         by simp [DashboardService.removeBookmark, hsingle]⟩

/-- Witness for C5 on an empty catalog. -/
theorem unresolved_path_failopen_read_failclosed_write_witness :
    DashboardService.isBookmarked [] [] none "profile-1" "files/missing.pdf"
      = Except.ok false ∧
    DashboardService.addBookmark [] none "profile-1" ⟨"files/missing.pdf"⟩
      = Except.error DashboardService.pgrstNoRows ∧
    DashboardService.removeBookmark [] none "profile-1" "files/missing.pdf"
      = Except.error DashboardService.pgrstNoRows :=
  unresolved_path_failopen_read_failclosed_write [] [] none none none
    "profile-1" "files/missing.pdf" (by simp)

/-! ## Claim C6 -/

/-- Claim C6: `getModuleProgress` maps the no-rows condition (PGRST116 from
`.single()` over a table with no matching (profile, module) row) to `null`
rather than raising, while any error with a different code propagates. -/
theorem getModuleProgress_absent_row_null (db : List DashboardService.TrainingRow)
    (profileId trainingModuleId : String) (e : Err) :
    ((db.filter (fun r =>
        r.member_profile_id == profileId && r.training_module_id == trainingModuleId)) = [] →
      DashboardService.getModuleProgress
        (DashboardService.queryModuleProgress db profileId trainingModuleId)
        = Except.ok none) ∧
    (e.code ≠ "PGRST116" →
      DashboardService.getModuleProgress (Except.error e) = Except.error e) := by
  constructor
  · intro h
    simp [DashboardService.queryModuleProgress, h, DashboardService.getModuleProgress,
      DashboardService.pgrstNoRows]
  · intro h
    simp [DashboardService.getModuleProgress, h]

/-- Witness for C6: empty progress table yields `null`; a 500-coded error
propagates. -/
theorem getModuleProgress_absent_row_null_witness :
    DashboardService.getModuleProgress
      (DashboardService.queryModuleProgress [] "profile-1" "mod1") = Except.ok none ∧
    DashboardService.getModuleProgress (Except.error ⟨"500", "storage down"⟩)
      = Except.error ⟨"500", "storage down"⟩ :=
  ⟨(getModuleProgress_absent_row_null [] "profile-1" "mod1" ⟨"500", "storage down"⟩).1 rfl,
   (getModuleProgress_absent_row_null [] "profile-1" "mod1" ⟨"500", "storage down"⟩).2
     (by simp)⟩

/-! ## Claim C7 -/

/-- Claim C7: the completion percentage written by `updateTrainingProgress`
is `min(100, max(0, input))`: 150 stores 100, -10 stores 0, and a value
already in [0, 100] is stored unchanged. -/
theorem updateTrainingProgress_clamps (profileId trainingModuleId now : String)
    (p : Int) (isCompleted : Bool) :
    ((DashboardService.updateTrainingProgress profileId trainingModuleId p
        isCompleted now).1.completion_percentage = min 100 (max 0 p)) ∧
    ((DashboardService.updateTrainingProgress profileId trainingModuleId 150
        isCompleted now).1.completion_percentage = 100) ∧
    ((DashboardService.updateTrainingProgress profileId trainingModuleId (-10)
        isCompleted now).1.completion_percentage = 0) ∧
    (0 ≤ p → p ≤ 100 →
      (DashboardService.updateTrainingProgress profileId trainingModuleId p
        isCompleted now).1.completion_percentage = p) := by
  refine ⟨rfl, by norm_num [DashboardService.updateTrainingProgress],
    by norm_num [DashboardService.updateTrainingProgress], fun h1 h2 => ?_⟩
  simp only [DashboardService.updateTrainingProgress]
  omega

/-- Witness for C7: 42 is within range and stored unchanged. -/
theorem updateTrainingProgress_clamps_witness :
    (DashboardService.updateTrainingProgress "profile-1" "mod1" 42
      false "2024-01-01T00:00:00Z").1.completion_percentage = 42 :=
  (updateTrainingProgress_clamps "profile-1" "mod1" "2024-01-01T00:00:00Z" 42 false).2.2.2
    (by decide) (by decide)

/-! ## Claim C8 -/

/-- Claim C8 counterexample: `subscriptionStatus` is a camelCase `Account`
field, and here it is defined in the `Partial<Account>` argument, yet the
payload `updateAccount` builds is empty — the claim's "exactly the
snake_case columns for the camelCase fields that are defined" does not
hold, because the code only maps seven of the eleven fields. -/
theorem updateAccount_drops_defined_subscriptionStatus :
    ({ subscriptionStatus := some "active" } : AuthStore.AccountUpdate).subscriptionStatus.isSome
      = true ∧
    AuthStore.claimedColumns { subscriptionStatus := some "active" }
      = ["subscription_status"] ∧
    AuthStore.payloadColumns { subscriptionStatus := some "active" } = [] ∧
    AuthStore.updateAccount (some ⟨"user-1"⟩) { subscriptionStatus := some "active" }
      = Except.ok ([], "user-1") :=
  ⟨rfl, rfl, rfl, rfl⟩

/-- Claim C8, amended: `updateAccount` fails with `'No authenticated user'`
when no user id is resolved; otherwise it issues an update scoped to
`id = current user id` whose payload contains exactly the snake_case
columns for the defined fields among the seven updatable ones (email,
pharmacyName, pharmacyPhone, address1, city, state, zipcode) — undefined
fields are never sent — while the remaining `Account` fields
(id, subscriptionStatus, createdAt, updatedAt) are never sent even when
defined. -/
theorem updateAccount_field_mapping (u : AuthStore.AccountUpdate) :
    (AuthStore.updateAccount none u = Except.error "No authenticated user") ∧
    (∀ usr, AuthStore.updateAccount (some usr) u
      = Except.ok (AuthStore.updateAccountPayload u, usr.id)) ∧
    (("email" ∈ AuthStore.payloadColumns u) ↔ u.email.isSome = true) ∧
    (("pharmacy_name" ∈ AuthStore.payloadColumns u) ↔ u.pharmacyName.isSome = true) ∧
    (("pharmacy_phone" ∈ AuthStore.payloadColumns u) ↔ u.pharmacyPhone.isSome = true) ∧
    (("address1" ∈ AuthStore.payloadColumns u) ↔ u.address1.isSome = true) ∧
    (("city" ∈ AuthStore.payloadColumns u) ↔ u.city.isSome = true) ∧
    (("state" ∈ AuthStore.payloadColumns u) ↔ u.state.isSome = true) ∧
    (("zipcode" ∈ AuthStore.payloadColumns u) ↔ u.zipcode.isSome = true) ∧
    ("id" ∉ AuthStore.payloadColumns u) ∧
    ("subscription_status" ∉ AuthStore.payloadColumns u) ∧
    ("created_at" ∉ AuthStore.payloadColumns u) ∧
    ("updated_at" ∉ AuthStore.payloadColumns u) := by
  obtain ⟨i, e, pn, pp, ss, ca, ua, a1, ci, stt, z⟩ := u
  cases e <;> cases pn <;> cases pp <;> cases a1 <;> cases ci <;> cases stt <;> cases z <;>
    simp [AuthStore.updateAccount, AuthStore.payloadColumns, AuthStore.updateAccountPayload]

/-- Witness for the amended C8 theorem: the empty partial update with no
resolved user fails, and with a resolved user sends an empty payload
scoped to that user. -/
theorem updateAccount_field_mapping_witness :
    AuthStore.updateAccount none {} = Except.error "No authenticated user" ∧
    AuthStore.updateAccount (some ⟨"user-1"⟩) {} = Except.ok ([], "user-1") :=
  ⟨(updateAccount_field_mapping {}).1, (updateAccount_field_mapping {}).2.1 ⟨"user-1"⟩⟩

/-! ## Claim C9 -/

/-- Claim C9: in profile creation, when each provided date-of-birth field
matches its regex (a field left empty counts as not provided) the zod
schema accepts and `onSubmit` issues the insert; when any provided field
violates its regex, the resolver rejects the form and no network write is
issued at all, for every account/profile context. -/
theorem dob_validation_gates_network (m d y : String) :
    ((AddProfileModal.optionalField AddProfileModal.matchMonth m = true) →
     (AddProfileModal.optionalField AddProfileModal.matchDay d = true) →
     (AddProfileModal.optionalField AddProfileModal.matchYear y = true) →
      AddProfileModal.submitForm (some "acct-1") none (AddProfileModal.mkDobForm m d y)
        = [AddProfileModal.DbWrite.insertRow
            { member_account_id := "acct-1"
            , role_type := "Pharmacist-PIC"
            , first_name := "Jane"
            , last_name := "Doe"
            , phone_number := none
            , profile_email := none
            , dob_month := AddProfileModal.orNull m
            , dob_day := AddProfileModal.orNull d
            , dob_year := AddProfileModal.orNull y
            , license_number := none
            , nabp_eprofile_id := none
            , is_active := true }]) ∧
    ((AddProfileModal.optionalField AddProfileModal.matchMonth m = false ∨
      AddProfileModal.optionalField AddProfileModal.matchDay d = false ∨
      AddProfileModal.optionalField AddProfileModal.matchYear y = false) →
      ∀ account profileId,
        AddProfileModal.submitForm account profileId (AddProfileModal.mkDobForm m d y)
          = []) := by
  constructor
  · intro hm hd hy
    have hv : AddProfileModal.validateSchema (AddProfileModal.mkDobForm m d y) = true := by
      simp [AddProfileModal.validateSchema, AddProfileModal.mkDobForm,
        AddProfileModal.roleOk, optionalField_empty, hm, hd, hy]
    rw [AddProfileModal.submitForm, hv]
    simp [AddProfileModal.onSubmit, AddProfileModal.mkDobForm, AddProfileModal.orNull]
  · intro hbad account profileId
    have hv : AddProfileModal.validateSchema (AddProfileModal.mkDobForm m d y) = false := by
      rcases hbad with h | h | h <;>
        simp [AddProfileModal.validateSchema, AddProfileModal.mkDobForm, h]
    rw [AddProfileModal.submitForm, hv]
    rfl

/-- Witness for C9: the valid triple (05, 31, 1999) is inserted; the
invalid month 13 blocks every network write. -/
theorem dob_validation_gates_network_witness :
    AddProfileModal.submitForm (some "acct-1") none
        (AddProfileModal.mkDobForm "05" "31" "1999")
      = [AddProfileModal.DbWrite.insertRow
          { member_account_id := "acct-1"
          , role_type := "Pharmacist-PIC"
          , first_name := "Jane"
          , last_name := "Doe"
          , phone_number := none
          , profile_email := none
          , dob_month := some "05"
          , dob_day := some "31"
          , dob_year := some "1999"
          , license_number := none
          , nabp_eprofile_id := none
          , is_active := true }] ∧
    AddProfileModal.submitForm (some "acct-1") none
        (AddProfileModal.mkDobForm "13" "31" "1999") = [] := by
  constructor
  · have h := (dob_validation_gates_network "05" "31" "1999").1
      (by decide) (by decide) (by decide)
    simpa [AddProfileModal.orNull] using h
  · exact (dob_validation_gates_network "13" "31" "1999").2
      (Or.inl (by decide)) (some "acct-1") none
